import Mathlib

/-!
Shallow embedding of `download_videos.py` (SmartHome-Bench-LLM), the concurrent
batch video downloader, together with theorems settling the specification
claims about it.

Modelling conventions:
* The output directory is modelled as a `List String` of file names (the
  contents of `OUTPUT_DIR`).  `os.path.exists(os.path.join(OUTPUT_DIR, name))`
  becomes membership of `name` in that list.
* One invocation of the external fetcher (`subprocess.run` of `yt-dlp`,
  lines 140-146) is modelled by a `FetchOutcome` supplied by an environment
  `fetch : Nat → FetchOutcome`, indexed by the `retry_count` of the attempt:
  either the process returns with exit status zero having added some files to
  the directory (`completed added`), or it raises `subprocess.TimeoutExpired`
  (`timeout`), or it raises `subprocess.CalledProcessError` (`procError`), or
  some exception outside those modeled variants is raised (`unexpected`,
  caught by the bare `except Exception` at line 194).
* The thread-safe counters (lines 23-28) are a `Counters` record; every
  `with progress_lock:` block of the source becomes one atomic update in the
  model.
-/

set_option autoImplicit false

namespace DownloadVideos

/-- Configuration constant MAX_RETRIES (line 20 of the source). -/
def MAX_RETRIES : Nat := 3

/-- Configuration constant DEFAULT_MAX_WORKERS (line 21 of the source). -/
def DEFAULT_MAX_WORKERS : Nat := 8

/-- Recognized artifact extensions (line 111 and line 150 of the source use
the same literal list). -/
def extensions : List String := [".mp4", ".mkv", ".webm", ".flv"]

/-- One (title, url) pair produced by `read_video_urls` (lines 94-97). -/
structure WorkItem where
  title : String
  url : String
deriving Repr, DecidableEq, Inhabited

/-- The shared progress counters (lines 25-28 of the source). -/
structure Counters where
  success_count : Nat
  skip_count : Nat
  fail_count : Nat
  completed_count : Nat
deriving Repr, DecidableEq, Inhabited

/-- The all-zero counter state, as after the reset at lines 268-271. -/
def Counters.zero : Counters := ⟨0, 0, 0, 0⟩

/-- Result of one invocation of the external fetch process for one attempt. -/
inductive FetchOutcome where
  /-- subprocess.run returned with exit status 0; `added` are the files the
  invocation materialized in the output directory. -/
  | completed (added : List String)
  /-- subprocess.TimeoutExpired was raised (line 169). -/
  | timeout
  /-- subprocess.CalledProcessError was raised, i.e. non-zero exit (line 181). -/
  | procError
  /-- an exception outside the modeled variants was raised (line 194). -/
  | unexpected
deriving Repr, DecidableEq, Inhabited

/-- video_exists (lines 108-116): check whether `title` + any recognized
extension is present in the output store. -/
def video_exists (store : List String) (title : String) : Bool :=
  extensions.any fun ext => store.contains (title ++ ext)

/-- The probe at lines 148-154 of download_video: find the first recognized
extension whose file is present, returning the file name. -/
def find_downloaded (store : List String) (title : String) : Option String :=
  (extensions.find? fun ext => store.contains (title ++ ext)).map
    fun ext => title ++ ext

/-- Result of one call of download_video: the boolean return value, the
counters after the call, the output store after the call, how many times the
fetch process was invoked, and the sequence number `current` printed on the
terminal progress line. -/
structure DVOut where
  ret : Bool
  counters : Counters
  store : List String
  invocations : Nat
  disp : Nat
deriving Repr, DecidableEq, Inhabited

/-- Terminal classification of one WorkItem, as reported by
download_video_wrapper (lines 215 and 219). -/
inductive Status where
  | skipped
  | success
  | failed
deriving Repr, DecidableEq, Inhabited

/-- The single serialized counter update performed for a terminal outcome:
one of the three outcome counters and completed_count are incremented
together under progress_lock. -/
def bump (o : Status) (st : Counters) : Counters :=
  match o with
  | .skipped =>
      { st with skip_count := st.skip_count + 1,
                completed_count := st.completed_count + 1 }
  | .success =>
      { st with success_count := st.success_count + 1,
                completed_count := st.completed_count + 1 }
  | .failed =>
      { st with fail_count := st.fail_count + 1,
                completed_count := st.completed_count + 1 }

/-- download_video (lines 118-200).  `fetch rc` is the outcome of the fetch
invocation performed with `retry_count = rc`.  Mirrors the source: read
`current = completed_count + 1` (lines 136-137), invoke the fetcher; on exit
status zero probe the store (lines 148-154) and either count a success
(lines 156-161) or a failure (lines 162-167); on timeout or process error
retry while `retry_count < MAX_RETRIES` (lines 169-193); on any other
exception count a failure immediately (lines 194-200). -/
def download_video (fetch : Nat → FetchOutcome) (title : String)
    (retry_count : Nat) (st : Counters) (store : List String) : DVOut :=
  let current := st.completed_count + 1
  match fetch retry_count with
  | .completed added =>
      let store' := store ++ added
      match find_downloaded store' title with
      | some _ =>
          ⟨true,
           { st with success_count := st.success_count + 1,
                     completed_count := st.completed_count + 1 },
           store', 1, current⟩
      | none =>
          ⟨false,
           { st with fail_count := st.fail_count + 1,
                     completed_count := st.completed_count + 1 },
           store', 1, current⟩
  | .timeout =>
      if retry_count < MAX_RETRIES then
        let r := download_video fetch title (retry_count + 1) st store
        { r with invocations := r.invocations + 1 }
      else
        ⟨false,
         { st with fail_count := st.fail_count + 1,
                   completed_count := st.completed_count + 1 },
         store, 1, current⟩
  | .procError =>
      if retry_count < MAX_RETRIES then
        let r := download_video fetch title (retry_count + 1) st store
        { r with invocations := r.invocations + 1 }
      else
        ⟨false,
         { st with fail_count := st.fail_count + 1,
                   completed_count := st.completed_count + 1 },
         store, 1, current⟩
  | .unexpected =>
      ⟨false,
       { st with fail_count := st.fail_count + 1,
                 completed_count := st.completed_count + 1 },
       store, 1, current⟩
termination_by MAX_RETRIES + 1 - retry_count

/-- Result of download_video_wrapper for one item. -/
structure WrapOut where
  status : Status
  counters : Counters
  store : List String
  invocations : Nat
  disp : Nat
deriving Repr, DecidableEq, Inhabited

/-- download_video_wrapper (lines 202-219): consult video_exists first; on a
hit record a skip under the lock and read back `current = completed_count`
(lines 210-213); otherwise run download_video with `retry_count = 0`. -/
def download_video_wrapper (fetch : Nat → FetchOutcome) (item : WorkItem)
    (st : Counters) (store : List String) : WrapOut :=
  if video_exists store item.title then
    let st' := { st with skip_count := st.skip_count + 1,
                         completed_count := st.completed_count + 1 }
    ⟨.skipped, st', store, 0, st'.completed_count⟩
  else
    let r := download_video fetch item.title 0 st store
    ⟨if r.ret then .success else .failed, r.counters, r.store,
     r.invocations, r.disp⟩

/-- The sequential execution mode of main (lines 274-278, taken when
`max_workers == 1`): process the items in input order, threading the counters
and the output store.  `envs i` is the fetch environment of the i-th item.
Returns the per-item results in input order, the final counters and the final
store. -/
def run_sequential (envs : Nat → Nat → FetchOutcome) (idx : Nat)
    (items : List WorkItem) (st : Counters) (store : List String) :
    List WrapOut × Counters × List String :=
  match items with
  | [] => ([], st, store)
  | it :: rest =>
      let w := download_video_wrapper (envs idx) it st store
      let (ws, st', store') := run_sequential envs (idx + 1) rest w.counters w.store
      (w :: ws, st', store')

/-- Total number of fetch invocations across a list of per-item results. -/
def totalInvocations (ws : List WrapOut) : Nat :=
  ws.foldl (fun n w => n + w.invocations) 0

/-- Fold a completion-ordered list of terminal outcomes into the counters,
one serialized bump per outcome.  Under any concurrency degree, every
terminal outcome performs exactly one `bump` under progress_lock, so the
counters evolve as this fold along the realized completion order. -/
def applyAll (os : List Status) (st : Counters) : Counters :=
  os.foldl (fun s o => bump o s) st

/-- Sum of the three outcome counters. -/
def Counters.sum3 (st : Counters) : Nat :=
  st.success_count + st.skip_count + st.fail_count

/-- One CSV row after the key resolution of read_video_urls (lines 76-77:
the value under the `Title`/`title` key, if either is present, and likewise
for `URL`/`url`). -/
structure CsvRow where
  title : Option String
  url : Option String
deriving Repr, DecidableEq, Inhabited

/-- The per-row body of read_video_urls (lines 79-97): skip the row when a
column is missing, when the stripped title or url is empty, when the url
lowercases to "privacy url", or when it does not start with "http";
otherwise produce the WorkItem. -/
def rowToVideo (row : CsvRow) : Option WorkItem :=
  match row.title, row.url with
  | some t0, some u0 =>
      let title := t0.trim
      let url := u0.trim
      if title = "" || url = "" then none
      else if url.toLower = "privacy url" || !(url.startsWith "http") then none
      else some ⟨title, url⟩
  | _, _ => none

/-- read_video_urls (lines 67-98) as a function of the parsed rows: the rows
that survive the filter, in order. -/
def read_video_urls (rows : List CsvRow) : List WorkItem :=
  rows.filterMap rowToVideo

/-- The exclusion condition of claim C10, stated over a row: a missing title
or URL column, an empty trimmed title or URL, a URL equal case-insensitively
to "privacy url", or a URL not starting with "http". -/
def rowExcluded (row : CsvRow) : Bool :=
  match row.title, row.url with
  | some t0, some u0 =>
      t0.trim = "" || u0.trim = "" || u0.trim.toLower = "privacy url" ||
        !(u0.trim.startsWith "http")
  | _, _ => true

/-! ### Interleaving model of the success path of download_video

For claims about behaviour under a concurrency degree greater than 1, the
relevant shared-state accesses of download_video's success path are its two
separate critical sections: the read `current = completed_count + 1` under
progress_lock at lines 136-137 (whose value is later printed as the item's
sequence number at line 160), and the increment of success_count and
completed_count under progress_lock at lines 157-159.  Each critical section
is one atomic event; between the two, the worker runs the fetch process with
the lock released, so events of different workers may interleave freely
subject to each worker's own program order. -/

/-- One atomic (lock-protected) event of worker `i` on the shared counters,
for an item that downloads successfully. -/
inductive SeqEv where
  /-- lines 136-137: `current = completed_count + 1`, later printed for item
  `i` as its sequence number. -/
  | readCurrent (i : Nat)
  /-- lines 157-159: `success_count += 1; completed_count += 1`. -/
  | finalizeSuccess (i : Nat)
deriving Repr, DecidableEq, Inhabited

/-- Shared state of the interleaving model: the counters plus, for each item
that has executed its read, the sequence number it captured for display. -/
structure ConcState where
  counters : Counters
  disp : List (Nat × Nat)
deriving Repr, DecidableEq, Inhabited

/-- Execute one atomic event. -/
def stepEv (s : ConcState) (e : SeqEv) : ConcState :=
  match e with
  | .readCurrent i =>
      { s with disp := s.disp ++ [(i, s.counters.completed_count + 1)] }
  | .finalizeSuccess _ =>
      { s with counters :=
          { s.counters with
              success_count := s.counters.success_count + 1,
              completed_count := s.counters.completed_count + 1 } }

/-- Run a schedule (a global interleaving of the workers' events) from the
all-zero state. -/
def runEvs (sched : List SeqEv) : ConcState :=
  sched.foldl stepEv ⟨Counters.zero, []⟩

/-- The sequence number item `i` captured for display, if it has read one. -/
def displayedSeq (s : ConcState) (i : Nat) : Option Nat :=
  (s.disp.find? fun p => p.1 == i).map Prod.snd

/-- The program order of worker `i` processing one successfully-downloading
item: first the read of `current`, then the terminal increment. -/
def itemProg (i : Nat) : List SeqEv :=
  [.readCurrent i, .finalizeSuccess i]

/-! ### One-step unfolding lemmas for download_video

One lemma per branch of the try/except of lines 135-200, obtained by
unfolding the recursive definition once under the branch's condition. -/

theorem dv_step_completed_found (fetch : Nat → FetchOutcome) (title : String)
    (rc : Nat) (st : Counters) (store added : List String) (f : String)
    (hfetch : fetch rc = .completed added)
    (hfind : find_downloaded (store ++ added) title = some f) :
    download_video fetch title rc st store =
      ⟨true, bump .success st, store ++ added, 1, st.completed_count + 1⟩ := by
  rw [download_video.eq_def]
  simp [hfetch, hfind, bump]

theorem dv_step_completed_missing (fetch : Nat → FetchOutcome) (title : String)
    (rc : Nat) (st : Counters) (store added : List String)
    (hfetch : fetch rc = .completed added)
    (hfind : find_downloaded (store ++ added) title = none) :
    download_video fetch title rc st store =
      ⟨false, bump .failed st, store ++ added, 1, st.completed_count + 1⟩ := by
  rw [download_video.eq_def]
  simp [hfetch, hfind, bump]

theorem dv_step_timeout_retry (fetch : Nat → FetchOutcome) (title : String)
    (rc : Nat) (st : Counters) (store : List String)
    (hfetch : fetch rc = .timeout) (hlt : rc < MAX_RETRIES) :
    download_video fetch title rc st store =
      { download_video fetch title (rc + 1) st store with
        invocations := (download_video fetch title (rc + 1) st store).invocations + 1 } := by
  rw [download_video.eq_def]
  simp [hfetch, hlt]

theorem dv_step_timeout_stop (fetch : Nat → FetchOutcome) (title : String)
    (rc : Nat) (st : Counters) (store : List String)
    (hfetch : fetch rc = .timeout) (hge : ¬ rc < MAX_RETRIES) :
    download_video fetch title rc st store =
      ⟨false, bump .failed st, store, 1, st.completed_count + 1⟩ := by
  rw [download_video.eq_def]
  simp [hfetch, hge, bump]

theorem dv_step_procError_retry (fetch : Nat → FetchOutcome) (title : String)
    (rc : Nat) (st : Counters) (store : List String)
    (hfetch : fetch rc = .procError) (hlt : rc < MAX_RETRIES) :
    download_video fetch title rc st store =
      { download_video fetch title (rc + 1) st store with
        invocations := (download_video fetch title (rc + 1) st store).invocations + 1 } := by
  rw [download_video.eq_def]
  simp [hfetch, hlt]

theorem dv_step_procError_stop (fetch : Nat → FetchOutcome) (title : String)
    (rc : Nat) (st : Counters) (store : List String)
    (hfetch : fetch rc = .procError) (hge : ¬ rc < MAX_RETRIES) :
    download_video fetch title rc st store =
      ⟨false, bump .failed st, store, 1, st.completed_count + 1⟩ := by
  rw [download_video.eq_def]
  simp [hfetch, hge, bump]

theorem dv_step_unexpected (fetch : Nat → FetchOutcome) (title : String)
    (rc : Nat) (st : Counters) (store : List String)
    (hfetch : fetch rc = .unexpected) :
    download_video fetch title rc st store =
      ⟨false, bump .failed st, store, 1, st.completed_count + 1⟩ := by
  rw [download_video.eq_def]
  simp [hfetch, bump]

/-! ### Basic facts about the artifact store -/

theorem video_exists_of_find (store : List String) (title f : String)
    (h : find_downloaded store title = some f) : video_exists store title = true := by
  unfold find_downloaded at h
  obtain ⟨ext, hfind, rfl⟩ := Option.map_eq_some'.mp h
  have hmem := List.mem_of_find?_eq_some hfind
  have hp := List.find?_some hfind
  simp [video_exists, List.any_eq_true]
  exact ⟨ext, hmem, by simpa using hp⟩

theorem video_exists_append_left (store s : List String) (title : String)
    (h : video_exists store title = true) :
    video_exists (store ++ s) title = true := by
  simp only [video_exists, List.any_eq_true] at h ⊢
  obtain ⟨ext, h1, h2⟩ := h
  refine ⟨ext, h1, ?_⟩
  have : (title ++ ext) ∈ store := by simpa using h2
  simp [List.mem_append, this]

/-- Bundled invariants of download_video, by induction along its recursion:
the counters after a call are exactly one `bump` of the counters before it
(a success bump when it returns True, a failure bump when it returns False);
the printed sequence number is `completed_count + 1` read at entry; the
output store is only appended to; the fetcher is invoked at most
`MAX_RETRIES + 1 - min retry_count MAX_RETRIES` times; and a True return
implies the artifact is present in the resulting store. -/
theorem dv_main (fetch : Nat → FetchOutcome) (title : String) (rc0 : Nat)
    (st0 : Counters) (store0 : List String) :
    ((download_video fetch title rc0 st0 store0).counters =
        bump (if (download_video fetch title rc0 st0 store0).ret then Status.success
              else Status.failed) st0) ∧
    (download_video fetch title rc0 st0 store0).disp = st0.completed_count + 1 ∧
    (∃ added, (download_video fetch title rc0 st0 store0).store = store0 ++ added) ∧
    (download_video fetch title rc0 st0 store0).invocations ≤
      MAX_RETRIES + 1 - min rc0 MAX_RETRIES ∧
    ((download_video fetch title rc0 st0 store0).ret = true →
        video_exists (download_video fetch title rc0 st0 store0).store title = true) := by
  refine download_video.induct fetch title
    (fun rc st store =>
      ((download_video fetch title rc st store).counters =
          bump (if (download_video fetch title rc st store).ret then Status.success
                else Status.failed) st) ∧
      (download_video fetch title rc st store).disp = st.completed_count + 1 ∧
      (∃ added, (download_video fetch title rc st store).store = store ++ added) ∧
      (download_video fetch title rc st store).invocations ≤
        MAX_RETRIES + 1 - min rc MAX_RETRIES ∧
      ((download_video fetch title rc st store).ret = true →
          video_exists (download_video fetch title rc st store).store title = true))
    ?_ ?_ ?_ ?_ ?_ ?_ ?_ rc0 st0 store0
  · intro rc st store a hfetch store' val hfind
    rw [dv_step_completed_found fetch title rc st store a val hfetch hfind]
    refine ⟨rfl, rfl, ⟨a, rfl⟩, ?_, fun _ => video_exists_of_find _ _ _ hfind⟩
    show (1:Nat) ≤ 3 + 1 - min rc 3
    omega
  · intro rc st store a hfetch store' hfind
    rw [dv_step_completed_missing fetch title rc st store a hfetch hfind]
    refine ⟨rfl, rfl, ⟨a, rfl⟩, ?_, fun h => by simp at h⟩
    show (1:Nat) ≤ 3 + 1 - min rc 3
    omega
  · intro rc st store hfetch hlt ih
    rw [dv_step_timeout_retry fetch title rc st store hfetch hlt]
    obtain ⟨ih1, ih2, ih3, ih4, ih5⟩ := ih
    refine ⟨ih1, ih2, ih3, ?_, ih5⟩
    have h4 : (download_video fetch title (rc + 1) st store).invocations ≤
        3 + 1 - min (rc + 1) 3 := ih4
    have hlt3 : rc < 3 := hlt
    show (download_video fetch title (rc + 1) st store).invocations + 1 ≤
      3 + 1 - min rc 3
    omega
  · intro rc st store hfetch hge
    rw [dv_step_timeout_stop fetch title rc st store hfetch hge]
    refine ⟨rfl, rfl, ⟨[], by simp⟩, ?_, fun h => by simp at h⟩
    show (1:Nat) ≤ 3 + 1 - min rc 3
    omega
  · intro rc st store hfetch hlt ih
    rw [dv_step_procError_retry fetch title rc st store hfetch hlt]
    obtain ⟨ih1, ih2, ih3, ih4, ih5⟩ := ih
    refine ⟨ih1, ih2, ih3, ?_, ih5⟩
    have h4 : (download_video fetch title (rc + 1) st store).invocations ≤
        3 + 1 - min (rc + 1) 3 := ih4
    have hlt3 : rc < 3 := hlt
    show (download_video fetch title (rc + 1) st store).invocations + 1 ≤
      3 + 1 - min rc 3
    omega
  · intro rc st store hfetch hge
    rw [dv_step_procError_stop fetch title rc st store hfetch hge]
    refine ⟨rfl, rfl, ⟨[], by simp⟩, ?_, fun h => by simp at h⟩
    show (1:Nat) ≤ 3 + 1 - min rc 3
    omega
  · intro rc st store hfetch
    rw [dv_step_unexpected fetch title rc st store hfetch]
    refine ⟨rfl, rfl, ⟨[], by simp⟩, ?_, fun h => by simp at h⟩
    show (1:Nat) ≤ 3 + 1 - min rc 3
    omega

/-- The counters after download_video are one bump of the counters before:
a success bump on a True return, a failure bump on a False return. -/
theorem dv_counters (fetch : Nat → FetchOutcome) (title : String) (rc : Nat)
    (st : Counters) (store : List String) :
    (download_video fetch title rc st store).counters =
      bump (if (download_video fetch title rc st store).ret then Status.success
            else Status.failed) st :=
  (dv_main fetch title rc st store).1

/-- The sequence number printed for a download is completed_count + 1 as read
at entry of the call. -/
theorem dv_disp (fetch : Nat → FetchOutcome) (title : String) (rc : Nat)
    (st : Counters) (store : List String) :
    (download_video fetch title rc st store).disp = st.completed_count + 1 :=
  (dv_main fetch title rc st store).2.1

/-- download_video only ever appends files to the output store. -/
theorem dv_store_mono (fetch : Nat → FetchOutcome) (title : String) (rc : Nat)
    (st : Counters) (store : List String) :
    ∃ added, (download_video fetch title rc st store).store = store ++ added :=
  (dv_main fetch title rc st store).2.2.1

/-- No path through download_video performs more than MAX_RETRIES + 1 fetch
invocations. -/
theorem dv_invocations_le (fetch : Nat → FetchOutcome) (title : String) (rc : Nat)
    (st : Counters) (store : List String) :
    (download_video fetch title rc st store).invocations ≤ MAX_RETRIES + 1 := by
  have h := (dv_main fetch title rc st store).2.2.2.1
  have : MAX_RETRIES + 1 - min rc MAX_RETRIES ≤ MAX_RETRIES + 1 := by omega
  omega

/-- A True return of download_video means the artifact is present in the
output store afterwards. -/
theorem dv_ret_exists (fetch : Nat → FetchOutcome) (title : String) (rc : Nat)
    (st : Counters) (store : List String)
    (h : (download_video fetch title rc st store).ret = true) :
    video_exists (download_video fetch title rc st store).store title = true :=
  (dv_main fetch title rc st store).2.2.2.2 h

/-! ### Facts about bump, download_video_wrapper and run_sequential -/

theorem bump_completed (o : Status) (st : Counters) :
    (bump o st).completed_count = st.completed_count + 1 := by
  cases o <;> rfl

theorem bump_sum3 (o : Status) (st : Counters) :
    (bump o st).sum3 = st.sum3 + 1 := by
  cases o <;> simp [bump, Counters.sum3] <;> omega

/-- The wrapper performs exactly one terminal bump, tagged with its reported
status. -/
theorem wrap_counters (fetch : Nat → FetchOutcome) (item : WorkItem)
    (st : Counters) (store : List String) :
    (download_video_wrapper fetch item st store).counters =
      bump (download_video_wrapper fetch item st store).status st := by
  unfold download_video_wrapper
  by_cases h : video_exists store item.title
  · simp [h, bump]
  · simp only [h, Bool.false_eq_true, if_false]
    exact dv_counters fetch item.title 0 st store

/-- The sequence number the wrapper reports is completed_count + 1 as of the
state it started from, on both the skip path and the download path. -/
theorem wrap_disp (fetch : Nat → FetchOutcome) (item : WorkItem)
    (st : Counters) (store : List String) :
    (download_video_wrapper fetch item st store).disp = st.completed_count + 1 := by
  unfold download_video_wrapper
  by_cases h : video_exists store item.title
  · simp [h]
  · simp only [h, Bool.false_eq_true, if_false]
    exact dv_disp fetch item.title 0 st store

theorem wrap_store_mono (fetch : Nat → FetchOutcome) (item : WorkItem)
    (st : Counters) (store : List String) :
    ∃ added, (download_video_wrapper fetch item st store).store = store ++ added := by
  unfold download_video_wrapper
  by_cases h : video_exists store item.title
  · exact ⟨[], by simp [h]⟩
  · simp only [h, Bool.false_eq_true, if_false]
    exact dv_store_mono fetch item.title 0 st store

/-- An item whose terminal status is not Failed has its artifact present in
the store the wrapper leaves behind: a skip found it there already, and a
success confirmed it after the fetch. -/
theorem wrap_not_failed_exists (fetch : Nat → FetchOutcome) (item : WorkItem)
    (st : Counters) (store : List String)
    (h : (download_video_wrapper fetch item st store).status ≠ Status.failed) :
    video_exists (download_video_wrapper fetch item st store).store item.title = true := by
  unfold download_video_wrapper at h ⊢
  by_cases hex : video_exists store item.title
  · simp [hex]
  · simp only [hex, Bool.false_eq_true, if_false] at h ⊢
    by_cases hret : (download_video fetch item.title 0 st store).ret
    · exact dv_ret_exists fetch item.title 0 st store hret
    · simp [hret] at h

theorem applyAll_nil (st : Counters) : applyAll [] st = st := rfl

theorem applyAll_cons (o : Status) (os : List Status) (st : Counters) :
    applyAll (o :: os) st = applyAll os (bump o st) := rfl

theorem applyAll_completed (os : List Status) (st : Counters) :
    (applyAll os st).completed_count = st.completed_count + os.length := by
  induction os generalizing st with
  | nil => simp [applyAll_nil]
  | cons o os ih =>
      rw [applyAll_cons, ih, bump_completed]
      simp only [List.length_cons]
      omega

theorem applyAll_sum3 (os : List Status) (st : Counters) :
    (applyAll os st).sum3 = st.sum3 + os.length := by
  induction os generalizing st with
  | nil => simp [applyAll_nil]
  | cons o os ih =>
      rw [applyAll_cons, ih, bump_sum3]
      simp only [List.length_cons]
      omega

/-- The sequential run produces one result per item. -/
theorem run_length (envs : Nat → Nat → FetchOutcome) (idx : Nat)
    (items : List WorkItem) (st : Counters) (store : List String) :
    (run_sequential envs idx items st store).1.length = items.length := by
  induction items generalizing idx st store with
  | nil => rfl
  | cons it rest ih =>
      simp only [run_sequential]
      simp [ih]

/-- The final counters of a sequential run are the fold of the per-item
bumps, in input order. -/
theorem run_counters (envs : Nat → Nat → FetchOutcome) (idx : Nat)
    (items : List WorkItem) (st : Counters) (store : List String) :
    (run_sequential envs idx items st store).2.1 =
      applyAll ((run_sequential envs idx items st store).1.map WrapOut.status) st := by
  induction items generalizing idx st store with
  | nil => rfl
  | cons it rest ih =>
      simp only [run_sequential, List.map_cons, applyAll_cons]
      rw [← wrap_counters (envs idx) it st store]
      exact ih (idx + 1) _ _

theorem run_disp (envs : Nat → Nat → FetchOutcome) (idx : Nat)
    (items : List WorkItem) (st : Counters) (store : List String)
    (i : Nat) (h : i < items.length) :
    ((run_sequential envs idx items st store).1.getD i default).disp =
      st.completed_count + i + 1 := by
  induction items generalizing idx st store i with
  | nil => simp at h
  | cons it rest ih =>
      simp only [run_sequential]
      cases i with
      | zero =>
          simpa using wrap_disp (envs idx) it st store
      | succ i =>
          simp only [List.getD_cons_succ]
          have hlen : i < rest.length := by simpa using h
          have := ih (idx + 1)
            (download_video_wrapper (envs idx) it st store).counters
            (download_video_wrapper (envs idx) it st store).store i hlen
          rw [this]
          have hc : (download_video_wrapper (envs idx) it st store).counters.completed_count
              = st.completed_count + 1 := by
            rw [wrap_counters, bump_completed]
          omega

theorem run_store_mono (envs : Nat → Nat → FetchOutcome) (idx : Nat)
    (items : List WorkItem) (st : Counters) (store : List String) :
    ∃ added, (run_sequential envs idx items st store).2.2 = store ++ added := by
  induction items generalizing idx st store with
  | nil => exact ⟨[], by simp [run_sequential]⟩
  | cons it rest ih =>
      simp only [run_sequential]
      obtain ⟨a1, h1⟩ := wrap_store_mono (envs idx) it st store
      obtain ⟨a2, h2⟩ := ih (idx + 1)
        (download_video_wrapper (envs idx) it st store).counters
        (download_video_wrapper (envs idx) it st store).store
      refine ⟨a1 ++ a2, ?_⟩
      rw [h2, h1, List.append_assoc]

theorem run_all_exist (envs : Nat → Nat → FetchOutcome) (idx : Nat)
    (items : List WorkItem) (st : Counters) (store : List String)
    (h : ∀ w ∈ (run_sequential envs idx items st store).1, w.status ≠ Status.failed) :
    ∀ item ∈ items,
      video_exists (run_sequential envs idx items st store).2.2 item.title = true := by
  induction items generalizing idx st store with
  | nil => simp
  | cons it rest ih =>
      intro item hmem
      simp only [run_sequential] at h ⊢
      rcases List.mem_cons.mp hmem with rfl | hmem
      · have hw : (download_video_wrapper (envs idx) item st store).status ≠ Status.failed := by
          apply h
          simp [run_sequential]
        have hex := wrap_not_failed_exists (envs idx) item st store hw
        obtain ⟨a2, h2⟩ := run_store_mono envs (idx + 1) rest
          (download_video_wrapper (envs idx) item st store).counters
          (download_video_wrapper (envs idx) item st store).store
        simp only [h2]
        exact video_exists_append_left _ _ _ hex
      · have hrest : ∀ w ∈ (run_sequential envs (idx + 1) rest
            (download_video_wrapper (envs idx) it st store).counters
            (download_video_wrapper (envs idx) it st store).store).1,
            w.status ≠ Status.failed := by
          intro w hw
          apply h
          simp [run_sequential, hw]
        exact ih (idx + 1) _ _ hrest item hmem

theorem run_all_skip (envs : Nat → Nat → FetchOutcome) (idx : Nat)
    (items : List WorkItem) (st : Counters) (store : List String)
    (h : ∀ item ∈ items, video_exists store item.title = true) :
    (∀ w ∈ (run_sequential envs idx items st store).1,
        w.status = Status.skipped ∧ w.invocations = 0) ∧
    (run_sequential envs idx items st store).2.2 = store := by
  induction items generalizing idx st store with
  | nil => simp [run_sequential]
  | cons it rest ih =>
      have hit : video_exists store it.title = true := h it (by simp)
      have hw : download_video_wrapper (envs idx) it st store =
          ⟨Status.skipped, bump .skipped st, store, 0,
            (bump .skipped st).completed_count⟩ := by
        unfold download_video_wrapper
        simp [hit, bump]
      have hrest := ih (idx + 1) (bump .skipped st) store
        (fun item hm => h item (by simp [hm]))
      constructor
      · intro w hmem
        simp only [run_sequential, hw] at hmem
        rcases List.mem_cons.mp hmem with rfl | hmem
        · exact ⟨rfl, rfl⟩
        · exact hrest.1 w hmem
      · simp only [run_sequential, hw]
        exact hrest.2

theorem any_eq_isSome_find (p : String → Bool) (l : List String) :
    l.any p = (l.find? p).isSome := by
  induction l with
  | nil => rfl
  | cons a l ih =>
      by_cases h : p a
      · simp [List.any_cons, List.find?_cons_of_pos _ h, h]
      · simp [List.any_cons, List.find?_cons_of_neg _ h, h, ih]

theorem video_exists_eq_isSome (store : List String) (title : String) :
    video_exists store title = (find_downloaded store title).isSome := by
  simp only [video_exists, find_downloaded]
  rw [any_eq_isSome_find]
  cases List.find? (fun ext => store.contains (title ++ ext)) extensions <;> rfl

theorem dv_all_fail (fetch : Nat → FetchOutcome) (title : String)
    (hf : ∀ n, fetch n = FetchOutcome.timeout ∨ fetch n = FetchOutcome.procError)
    (st : Counters) (store : List String) :
    ∀ k rc, MAX_RETRIES - rc = k →
      (download_video fetch title rc st store).invocations =
        MAX_RETRIES + 1 - min rc MAX_RETRIES ∧
      (download_video fetch title rc st store).ret = false ∧
      (download_video fetch title rc st store).store = store ∧
      (download_video fetch title rc st store).counters = bump Status.failed st := by
  intro k
  induction k with
  | zero =>
      intro rc hrc
      have hge : ¬ rc < MAX_RETRIES := by
        have : MAX_RETRIES - rc = 0 := hrc
        omega
      rcases hf rc with hfetch | hfetch
      · rw [dv_step_timeout_stop fetch title rc st store hfetch hge]
        refine ⟨?_, rfl, rfl, rfl⟩
        show (1:Nat) = 3 + 1 - min rc 3
        have h3 : ¬ rc < 3 := hge
        omega
      · rw [dv_step_procError_stop fetch title rc st store hfetch hge]
        refine ⟨?_, rfl, rfl, rfl⟩
        show (1:Nat) = 3 + 1 - min rc 3
        have h3 : ¬ rc < 3 := hge
        omega
  | succ k ih =>
      intro rc hrc
      have hlt : rc < MAX_RETRIES := by
        have : MAX_RETRIES - rc = k + 1 := hrc
        omega
      have hnext : MAX_RETRIES - (rc + 1) = k := by
        have h1 : MAX_RETRIES - rc = k + 1 := hrc
        omega
      obtain ⟨ih1, ih2, ih3, ih4⟩ := ih (rc + 1) hnext
      rcases hf rc with hfetch | hfetch
      · rw [dv_step_timeout_retry fetch title rc st store hfetch hlt]
        refine ⟨?_, ih2, ih3, ih4⟩
        show (download_video fetch title (rc + 1) st store).invocations + 1 =
          MAX_RETRIES + 1 - min rc MAX_RETRIES
        have h1 : (download_video fetch title (rc + 1) st store).invocations =
            3 + 1 - min (rc + 1) 3 := ih1
        have h2 : rc < 3 := hlt
        show (download_video fetch title (rc + 1) st store).invocations + 1 =
          3 + 1 - min rc 3
        omega
      · rw [dv_step_procError_retry fetch title rc st store hfetch hlt]
        refine ⟨?_, ih2, ih3, ih4⟩
        have h1 : (download_video fetch title (rc + 1) st store).invocations =
            3 + 1 - min (rc + 1) 3 := ih1
        have h2 : rc < 3 := hlt
        show (download_video fetch title (rc + 1) st store).invocations + 1 =
          3 + 1 - min rc 3
        omega

/-- Claim C1: every terminal outcome of a WorkItem increments exactly one of
success_count/skip_count/fail_count together with completed_count exactly
once (first clause); therefore, along any serialized order of the per-item
updates, after every update completed_count equals
success_count + skip_count + fail_count and is at most total (second
clause), with equality to total at the end of the batch (third clause); in
particular a finished sequential batch satisfies the closing equalities
(fourth clause). -/
theorem c1_progress_invariant :
    (∀ (fetch : Nat → FetchOutcome) (item : WorkItem) (st : Counters)
        (store : List String),
        ∃ o : Status,
          (download_video_wrapper fetch item st store).status = o ∧
          (download_video_wrapper fetch item st store).counters = bump o st) ∧
    (∀ (os : List Status) (n : Nat),
        (applyAll (os.take n) Counters.zero).completed_count =
          (applyAll (os.take n) Counters.zero).success_count +
            (applyAll (os.take n) Counters.zero).skip_count +
            (applyAll (os.take n) Counters.zero).fail_count ∧
        (applyAll (os.take n) Counters.zero).completed_count ≤ os.length) ∧
    (∀ os : List Status,
        (applyAll os Counters.zero).success_count +
          (applyAll os Counters.zero).skip_count +
          (applyAll os Counters.zero).fail_count = os.length) ∧
    (∀ (envs : Nat → Nat → FetchOutcome) (items : List WorkItem)
        (store : List String),
        (run_sequential envs 0 items Counters.zero store).2.1.success_count +
          (run_sequential envs 0 items Counters.zero store).2.1.skip_count +
          (run_sequential envs 0 items Counters.zero store).2.1.fail_count =
            items.length ∧
        (run_sequential envs 0 items Counters.zero store).2.1.completed_count =
          items.length) := by
  have hsum : ∀ os : List Status,
      (applyAll os Counters.zero).success_count +
        (applyAll os Counters.zero).skip_count +
        (applyAll os Counters.zero).fail_count = os.length := by
    intro os
    have := applyAll_sum3 os Counters.zero
    simpa [Counters.sum3, Counters.zero] using this
  refine ⟨?_, ?_, hsum, ?_⟩
  · intro fetch item st store
    exact ⟨(download_video_wrapper fetch item st store).status, rfl,
      wrap_counters fetch item st store⟩
  · intro os n
    have h1 := hsum (os.take n)
    have h2 := applyAll_completed (os.take n) Counters.zero
    have h3 : (os.take n).length ≤ os.length := by
      simp [List.length_take]
    constructor
    · rw [h2, h1]
      simp [Counters.zero]
    · rw [h2]
      simp only [Counters.zero]
      omega
  · intro envs items store
    have hc := run_counters envs 0 items Counters.zero store
    have hlen : ((run_sequential envs 0 items Counters.zero store).1.map
        WrapOut.status).length = items.length := by
      simp [run_length]
    constructor
    · rw [hc]
      have := hsum ((run_sequential envs 0 items Counters.zero store).1.map
        WrapOut.status)
      rw [this, hlen]
    · rw [hc, applyAll_completed, hlen]
      simp [Counters.zero]

/-- Claim C2: if every fetch attempt fails with timeout or process error,
download_video invokes the fetcher exactly MAX_RETRIES + 1 times and returns
a terminal Failed outcome (False return, one failure bump); and no path
through download_video ever performs more than MAX_RETRIES + 1 invocations. -/
theorem c2_retry_bound :
    (∀ (fetch : Nat → FetchOutcome) (title : String) (st : Counters)
        (store : List String),
        (∀ n, fetch n = FetchOutcome.timeout ∨ fetch n = FetchOutcome.procError) →
        (download_video fetch title 0 st store).invocations = MAX_RETRIES + 1 ∧
        (download_video fetch title 0 st store).ret = false ∧
        (download_video fetch title 0 st store).counters = bump Status.failed st) ∧
    (∀ (fetch : Nat → FetchOutcome) (title : String) (rc : Nat) (st : Counters)
        (store : List String),
        (download_video fetch title rc st store).invocations ≤ MAX_RETRIES + 1) := by
  constructor
  · intro fetch title st store hf
    obtain ⟨h1, h2, _h3, h4⟩ :=
      dv_all_fail fetch title hf st store MAX_RETRIES 0 rfl
    exact ⟨by simpa using h1, h2, h4⟩
  · intro fetch title rc st store
    exact dv_invocations_le fetch title rc st store

/-- Witness for C2 at a concrete input: an item whose every attempt times
out is fetched exactly four times (MAX_RETRIES = 3) and fails. -/
theorem c2_retry_bound_witness :
    (download_video (fun _ => FetchOutcome.timeout) "C" 0 Counters.zero []).invocations =
      MAX_RETRIES + 1 ∧
    (download_video (fun _ => FetchOutcome.timeout) "C" 0 Counters.zero []).ret = false ∧
    (download_video (fun _ => FetchOutcome.timeout) "C" 0 Counters.zero []).counters =
      bump Status.failed Counters.zero :=
  c2_retry_bound.1 (fun _ => FetchOutcome.timeout) "C" Counters.zero []
    (fun _ => Or.inl rfl)

/-- Claim C3 counterexample: an item whose very first fetch attempt exits
with status zero but materializes no artifact is NOT retried: the fetcher is
invoked exactly once, not MAX_RETRIES + 1 times, and the outcome is already
the terminal Failed one. -/
theorem c3_counterexample :
    (download_video (fun _ => FetchOutcome.completed []) "C" 0 Counters.zero []).invocations = 1 ∧
    (download_video (fun _ => FetchOutcome.completed []) "C" 0 Counters.zero []).invocations ≠
      MAX_RETRIES + 1 ∧
    (download_video (fun _ => FetchOutcome.completed []) "C" 0 Counters.zero []).ret = false := by
  rw [dv_step_completed_missing (fun _ => FetchOutcome.completed []) "C" 0
    Counters.zero [] [] rfl rfl]
  exact ⟨rfl, by simp [MAX_RETRIES], rfl⟩

/-- Claim C3 amended: a zero-exit fetch with no artifact found afterwards
(PostconditionMismatch) is demoted to a terminal Failed outcome immediately
on the attempt where it occurs — exactly one invocation on that call, one
failure bump — at every retry_count, even when retry budget remains; it is
not retried the way Timeout and ProcessError are. -/
theorem c3_postcondition_mismatch_immediate (fetch : Nat → FetchOutcome)
    (title : String) (rc : Nat) (st : Counters) (store added : List String)
    (h1 : fetch rc = FetchOutcome.completed added)
    (h2 : find_downloaded (store ++ added) title = none) :
    download_video fetch title rc st store =
      ⟨false, bump Status.failed st, store ++ added, 1, st.completed_count + 1⟩ :=
  dv_step_completed_missing fetch title rc st store added h1 h2

/-- Witness for the amended C3 at a concrete input. -/
theorem c3_postcondition_mismatch_immediate_witness :
    download_video (fun _ => FetchOutcome.completed []) "A" 0 Counters.zero [] =
      ⟨false, bump Status.failed Counters.zero, [] ++ [], 1,
        Counters.zero.completed_count + 1⟩ :=
  c3_postcondition_mismatch_immediate (fun _ => FetchOutcome.completed [])
    "A" 0 Counters.zero [] [] rfl rfl

/-- Claim C4: a True (success) return of download_video happens only when an
artifact with a recognized extension is present in the output store after
the invocation (and is counted as exactly one success bump); a zero exit
status with no artifact present yields a False (Failed) return. -/
theorem c4_success_requires_artifact :
    (∀ (fetch : Nat → FetchOutcome) (title : String) (rc : Nat) (st : Counters)
        (store : List String),
        (download_video fetch title rc st store).ret = true →
        video_exists (download_video fetch title rc st store).store title = true ∧
        (download_video fetch title rc st store).counters = bump Status.success st) ∧
    (∀ (fetch : Nat → FetchOutcome) (title : String) (rc : Nat) (st : Counters)
        (store added : List String),
        fetch rc = FetchOutcome.completed added →
        video_exists (store ++ added) title = false →
        (download_video fetch title rc st store).ret = false) := by
  constructor
  · intro fetch title rc st store h
    refine ⟨dv_ret_exists fetch title rc st store h, ?_⟩
    have := dv_counters fetch title rc st store
    rwa [h, if_pos rfl] at this
  · intro fetch title rc st store added hfetch hex
    have hfind : find_downloaded (store ++ added) title = none := by
      have := video_exists_eq_isSome (store ++ added) title
      rw [hex] at this
      exact Option.not_isSome_iff_eq_none.mp (by simp [← this])
    rw [dv_step_completed_missing fetch title rc st store added hfetch hfind]

/-- Witness for C4 at concrete inputs: a fetch that materializes `A.mp4`
returns True with the artifact present; a zero-exit fetch that materializes
nothing returns False. -/
theorem c4_success_requires_artifact_witness :
    (video_exists (download_video (fun _ => FetchOutcome.completed ["A.mp4"])
        "A" 0 Counters.zero []).store "A" = true ∧
      (download_video (fun _ => FetchOutcome.completed ["A.mp4"]) "A" 0
        Counters.zero []).counters = bump Status.success Counters.zero) ∧
    (download_video (fun _ => FetchOutcome.completed []) "B" 0 Counters.zero []).ret = false :=
  ⟨c4_success_requires_artifact.1 (fun _ => FetchOutcome.completed ["A.mp4"])
      "A" 0 Counters.zero []
      (by rw [dv_step_completed_found (fun _ => FetchOutcome.completed ["A.mp4"])
        "A" 0 Counters.zero [] ["A.mp4"] "A.mp4" rfl rfl]),
   c4_success_requires_artifact.2 (fun _ => FetchOutcome.completed [])
      "B" 0 Counters.zero [] [] rfl rfl⟩

/-- Claim C5: an item whose artifact already exists in the output store is
recorded as Skipped immediately — one skip bump of the counters, the store
untouched, and zero fetcher invocations. -/
theorem c5_skip_short_circuit (fetch : Nat → FetchOutcome) (item : WorkItem)
    (st : Counters) (store : List String)
    (h : video_exists store item.title = true) :
    download_video_wrapper fetch item st store =
      ⟨Status.skipped, bump Status.skipped st, store, 0,
        (bump Status.skipped st).completed_count⟩ := by
  unfold download_video_wrapper
  simp [h, bump]

/-- Witness for C5 at a concrete input: item `A` with `A.mp4` already in the
store is skipped without invoking the fetcher. -/
theorem c5_skip_short_circuit_witness :
    download_video_wrapper (fun _ => FetchOutcome.timeout) ⟨"A", "http://x/a"⟩
        Counters.zero ["A.mp4"] =
      ⟨Status.skipped, bump Status.skipped Counters.zero, ["A.mp4"], 0,
        (bump Status.skipped Counters.zero).completed_count⟩ :=
  c5_skip_short_circuit (fun _ => FetchOutcome.timeout) ⟨"A", "http://x/a"⟩
    Counters.zero ["A.mp4"] (by decide)

/-- Claim C6, failing schedule: in the interleaving model of the success
path, the schedule that lets both workers execute their pre-download read of
`current = completed_count + 1` before either executes its terminal
increment is a valid interleaving of the two per-item programs (it contains
each program as a subsequence and is a permutation of their union), yet both
items capture and report the same sequence number 1 while two completions
are counted — the read at lines 136-137 and the increment at lines 157-159
are separate critical sections, not one atomic unit. -/
theorem c6_duplicate_sequence_numbers :
    List.Sublist (itemProg 0)
      [SeqEv.readCurrent 0, SeqEv.readCurrent 1,
       SeqEv.finalizeSuccess 0, SeqEv.finalizeSuccess 1] ∧
    List.Sublist (itemProg 1)
      [SeqEv.readCurrent 0, SeqEv.readCurrent 1,
       SeqEv.finalizeSuccess 0, SeqEv.finalizeSuccess 1] ∧
    List.Perm
      [SeqEv.readCurrent 0, SeqEv.readCurrent 1,
       SeqEv.finalizeSuccess 0, SeqEv.finalizeSuccess 1]
      (itemProg 0 ++ itemProg 1) ∧
    displayedSeq (runEvs
      [SeqEv.readCurrent 0, SeqEv.readCurrent 1,
       SeqEv.finalizeSuccess 0, SeqEv.finalizeSuccess 1]) 0 = some 1 ∧
    displayedSeq (runEvs
      [SeqEv.readCurrent 0, SeqEv.readCurrent 1,
       SeqEv.finalizeSuccess 0, SeqEv.finalizeSuccess 1]) 1 = some 1 ∧
    (runEvs
      [SeqEv.readCurrent 0, SeqEv.readCurrent 1,
       SeqEv.finalizeSuccess 0, SeqEv.finalizeSuccess 1]).counters.completed_count = 2 := by
  refine ⟨?_, ?_, ?_, rfl, rfl, rfl⟩
  · decide
  · decide
  · decide

/-- Claim C7: with concurrency degree 1 the items are processed strictly
sequentially in input order (run_sequential is the embedding of main's
sequential loop), and the sequence number reported for the i-th item
(1-based) equals i, for any fetch environments and any starting store. -/
theorem c7_degree_one_sequence_numbers (envs : Nat → Nat → FetchOutcome)
    (items : List WorkItem) (store : List String) (i : Nat)
    (h : i < items.length) :
    ((run_sequential envs 0 items Counters.zero store).1.getD i default).disp = i + 1 := by
  have := run_disp envs 0 items Counters.zero store i h
  simpa [Counters.zero] using this

/-- Witness for C7 at a concrete input: in a two-item batch the second item
reports sequence number 2. -/
theorem c7_degree_one_sequence_numbers_witness :
    ((run_sequential (fun _ _ => FetchOutcome.timeout) 0
        [⟨"A", "http://x/a"⟩, ⟨"B", "http://x/b"⟩] Counters.zero []).1.getD 1
      default).disp = 1 + 1 :=
  c7_degree_one_sequence_numbers (fun _ _ => FetchOutcome.timeout)
    [⟨"A", "http://x/a"⟩, ⟨"B", "http://x/b"⟩] [] 1 (by simp)

/-- Claim C8: an attempt that raises an exception outside the modeled
failure variants is converted into a terminal Failed outcome immediately:
one failure bump, one invocation on that call regardless of remaining retry
budget, the store untouched (first clause); and no item's failure aborts the
batch — a sequential run always yields one terminal result per submitted
item (second clause). -/
theorem c8_unexpected_contained :
    (∀ (fetch : Nat → FetchOutcome) (title : String) (rc : Nat) (st : Counters)
        (store : List String),
        fetch rc = FetchOutcome.unexpected →
        download_video fetch title rc st store =
          ⟨false, bump Status.failed st, store, 1, st.completed_count + 1⟩) ∧
    (∀ (envs : Nat → Nat → FetchOutcome) (idx : Nat) (items : List WorkItem)
        (st : Counters) (store : List String),
        (run_sequential envs idx items st store).1.length = items.length) := by
  constructor
  · intro fetch title rc st store hfetch
    exact dv_step_unexpected fetch title rc st store hfetch
  · intro envs idx items st store
    exact run_length envs idx items st store

/-- Witness for C8 at a concrete input: an unexpected exception on the very
first attempt (with the whole retry budget remaining) fails immediately with
a single invocation. -/
theorem c8_unexpected_contained_witness :
    download_video (fun _ => FetchOutcome.unexpected) "A" 0 Counters.zero [] =
      ⟨false, bump Status.failed Counters.zero, [], 1,
        Counters.zero.completed_count + 1⟩ :=
  c8_unexpected_contained.1 (fun _ => FetchOutcome.unexpected) "A" 0
    Counters.zero [] rfl

/-- Claim C9 counterexample: a single-item batch whose fetch always times
out fails its first run leaving no artifact, so the second run over the same
output store is NOT skipped: it invokes the fetcher MAX_RETRIES + 1 more
times and fails again, refuting the unconditional idempotence claim. -/
theorem run_single (envs : Nat → Nat → FetchOutcome) (it : WorkItem)
    (st : Counters) (store : List String) :
    run_sequential envs 0 [it] st store =
      ([download_video_wrapper (envs 0) it st store],
       (download_video_wrapper (envs 0) it st store).counters,
       (download_video_wrapper (envs 0) it st store).store) := rfl

theorem c9_counterexample :
    totalInvocations (run_sequential (fun _ _ => FetchOutcome.timeout) 0
        [⟨"C", "http://x/c"⟩] Counters.zero
        (run_sequential (fun _ _ => FetchOutcome.timeout) 0 [⟨"C", "http://x/c"⟩]
          Counters.zero []).2.2).1 = MAX_RETRIES + 1 ∧
    ((run_sequential (fun _ _ => FetchOutcome.timeout) 0 [⟨"C", "http://x/c"⟩]
        Counters.zero
        (run_sequential (fun _ _ => FetchOutcome.timeout) 0 [⟨"C", "http://x/c"⟩]
          Counters.zero []).2.2).1.getD 0 default).status = Status.failed := by
  obtain ⟨h1, h2, h3, h4⟩ := dv_all_fail (fun _ => FetchOutcome.timeout) "C"
    (fun _ => Or.inl rfl) Counters.zero [] MAX_RETRIES 0 rfl
  have hfalse : video_exists [] "C" = false := rfl
  have hWs : (download_video_wrapper (fun _ => FetchOutcome.timeout)
      ⟨"C", "http://x/c"⟩ Counters.zero []).store = [] := by
    simp only [download_video_wrapper, hfalse, Bool.false_eq_true, if_false]
    exact h3
  have hWi : (download_video_wrapper (fun _ => FetchOutcome.timeout)
      ⟨"C", "http://x/c"⟩ Counters.zero []).invocations = MAX_RETRIES + 1 := by
    simp only [download_video_wrapper, hfalse, Bool.false_eq_true, if_false]
    simpa using h1
  have hWst : (download_video_wrapper (fun _ => FetchOutcome.timeout)
      ⟨"C", "http://x/c"⟩ Counters.zero []).status = Status.failed := by
    simp only [download_video_wrapper, hfalse, Bool.false_eq_true, if_false]
    simp [h2]
  simp only [run_single, hWs]
  constructor
  · simp [totalInvocations, hWi]
  · simpa using hWst

/-- Claim C9 amended: re-running the same WorkItem set against the output
store left by a first sequential run is idempotent provided no item of the
first run ended in Failed: every item of the second run resolves Skipped
with zero fetcher invocations, because the artifact of every skipped or
succeeded item is present in the store the first run leaves behind. An item
that failed in the first run left no artifact and is re-fetched. -/
theorem c9_idempotent_after_clean_run (envs envs2 : Nat → Nat → FetchOutcome)
    (items : List WorkItem) (store0 : List String)
    (h : ∀ w ∈ (run_sequential envs 0 items Counters.zero store0).1,
        w.status ≠ Status.failed) :
    ∀ w ∈ (run_sequential envs2 0 items Counters.zero
        (run_sequential envs 0 items Counters.zero store0).2.2).1,
      w.status = Status.skipped ∧ w.invocations = 0 := by
  have hex := run_all_exist envs 0 items Counters.zero store0 h
  exact (run_all_skip envs2 0 items Counters.zero _ hex).1

/-- Witness for the amended C9 at a concrete input: item `A` is skipped in
the first run (its artifact pre-exists) and skipped again, with zero
invocations, in the second. -/
theorem c9_idempotent_after_clean_run_witness :
    ((run_sequential (fun _ _ => FetchOutcome.procError) 0
        [⟨"A", "http://x/a"⟩] Counters.zero
        (run_sequential (fun _ _ => FetchOutcome.timeout) 0 [⟨"A", "http://x/a"⟩]
          Counters.zero ["A.mp4"]).2.2).1.getD 0 default).status = Status.skipped ∧
    ((run_sequential (fun _ _ => FetchOutcome.procError) 0
        [⟨"A", "http://x/a"⟩] Counters.zero
        (run_sequential (fun _ _ => FetchOutcome.timeout) 0 [⟨"A", "http://x/a"⟩]
          Counters.zero ["A.mp4"]).2.2).1.getD 0 default).invocations = 0 :=
  c9_idempotent_after_clean_run (fun _ _ => FetchOutcome.timeout)
    (fun _ _ => FetchOutcome.procError) [⟨"A", "http://x/a"⟩] ["A.mp4"]
    (by decide) _ (by decide)

/-- Claim C10: every CSV row that lacks a title or URL column, has an empty
trimmed title or URL, has a URL equal case-insensitively to "privacy url",
or has a URL not starting with "http", is mapped to no WorkItem (first
clause) and its presence leaves the produced WorkItem list — and hence the
batch total and every counter — unchanged (second clause). -/
theorem c10_row_filtering :
    (∀ row : CsvRow, rowExcluded row = true → rowToVideo row = none) ∧
    (∀ (pre post : List CsvRow) (row : CsvRow), rowExcluded row = true →
        read_video_urls (pre ++ row :: post) = read_video_urls (pre ++ post)) := by
  have h1 : ∀ row : CsvRow, rowExcluded row = true → rowToVideo row = none := by
    intro row h
    rcases row with ⟨t, u⟩
    cases t with
    | none => rfl
    | some t0 =>
      cases u with
      | none => rfl
      | some u0 =>
        simp only [rowExcluded] at h
        simp only [rowToVideo]
        split_ifs with hf hs
        · rfl
        · rfl
        · exfalso
          simp only [Bool.or_eq_true] at h
          rcases h with ((h | h) | h) | h
          · apply hf
            rw [Bool.or_eq_true]
            exact Or.inl h
          · apply hf
            rw [Bool.or_eq_true]
            exact Or.inr h
          · apply hs
            rw [Bool.or_eq_true]
            exact Or.inl h
          · apply hs
            rw [Bool.or_eq_true]
            exact Or.inr h
  refine ⟨h1, ?_⟩
  intro pre post row h
  simp [read_video_urls, List.filterMap_append, List.filterMap_cons, h1 row h]

/-- Witness for C10 at a concrete input: a privacy-marked row contributes no
WorkItem and does not change the produced list. -/
theorem c10_row_filtering_witness :
    rowToVideo ⟨none, some "http://x/a"⟩ = none ∧
    read_video_urls ([⟨some "B", some "http://x/b"⟩] ++
        (⟨none, some "http://x/a"⟩ : CsvRow) :: []) =
      read_video_urls ([⟨some "B", some "http://x/b"⟩] ++ []) :=
  ⟨c10_row_filtering.1 ⟨none, some "http://x/a"⟩ rfl,
   c10_row_filtering.2 [⟨some "B", some "http://x/b"⟩] []
      ⟨none, some "http://x/a"⟩ rfl⟩

end DownloadVideos
